import Mathlib

/-!
Verification development for the Galway Vent Share monitor (VentGUI.py).

The tick handler MainWindow.updateData, the serial decoders get_pressure and
get_flow, the display slots setPpeak / setVte / setPEEP, and the alarm-settings
dialog slots updateAlarms / resetAlarms are embedded as pure Lean functions
over rational numbers; the timer-driven loop becomes an explicit iteration
over input streams of (pressure, flow) samples.
-/

/-! ## Module-level constants (VentGUI.py lines 22-28) -/

def interval : ℕ := 50

def graphPoints : ℕ := 100

def movingWindowPpeak : ℕ := 20

def movingWindowPEEP : ℕ := 5

def movingWindowVte : ℕ := 5

/-! ## Utility functions -/

/-- Python `avg` (line 39-40): mean of a list, 0 when empty. -/
def avg (arr : List ℚ) : ℚ :=
  if arr.length = 0 then 0 else arr.sum / arr.length

/-- Python builtin `max` on a list; the source only applies it to the
always-nonempty 100-sample display buffer, so the value on `[]` is arbitrary. -/
def pyMax : List ℚ → ℚ
  | [] => 0
  | x :: xs => xs.foldl max x

/-- Python builtin `round` to an integer: round half to even. -/
def pyRound (q : ℚ) : ℤ :=
  if q - ⌊q⌋ < 1/2 then ⌊q⌋
  else if 1/2 < q - ⌊q⌋ then ⌊q⌋ + 1
  else if 2 ∣ ⌊q⌋ then ⌊q⌋ else ⌊q⌋ + 1

/-- The moving-window idiom used for `self.PEEP`, `self.expV` and
`self.posPeaks` (lines 311-313, 314-316, 339-341):
`if len(w) == cap: w = w[1:]` followed by `w.append(x)`. -/
def pushWindow {α : Type} (cap : ℕ) (w : List α) (x : α) : List α :=
  (if w.length = cap then w.drop 1 else w) ++ [x]

/-! ## Serial protocol decoders -/

/-- Big-endian byte fold: Python `int(data.hex(), 16)` on a byte sequence
(0 for the empty sequence is NOT taken here; emptiness is checked by callers
that model the ValueError). -/
def beInt (bytes : List ℕ) : ℤ :=
  bytes.foldl (fun a b => 256 * a + (b : ℤ)) 0

/-- Decoding part of `get_pressure` (lines 78-86), as a function of the bytes
actually returned by `ser.read(6)` (possibly fewer than 6 on a short read):
reverse the bytes, slice `[1:3]`, parse as big-endian hex, apply the affine
scaling.  `int(pres.hex(), 16)` raises ValueError on an empty slice, which is
modelled as `none`; every nonempty slice decodes to `some` value. -/
def get_pressure_decode (data : List ℕ) : Option ℚ :=
  let reverse_data := data.reverse
  let pres := (reverse_data.drop 1).take 2
  if pres.isEmpty then none
  else some (1.01972 * (((beInt pres : ℚ) - 1638) / 32.7675 - 200))

/-- Decoding part of `get_flow` (lines 114-126), as a function of the bytes
returned by `ser.read(8)`: reverse the bytes, slice `[1:5]`, parse as
big-endian hex giving an unsigned count, subtract 2^32 when the count is at
least 2^31, divide by 1000. -/
def get_flow_decode (data : List ℕ) : ℚ :=
  let reverse_data := data.reverse
  let flow := (reverse_data.drop 1).take 4
  let F := beInt flow
  let F2 := if 2 ^ 31 ≤ F then F - 2 ^ 32 else F
  (F2 : ℚ) / 1000

/-- Modelled from the spec (section 4.1, flow decoding rule), for comparison
with `get_flow_decode`: interpret four bytes as a big-endian unsigned 32-bit
count, apply the two's-complement correction, divide by 1000. -/
def flow_spec_decode (a b c d : ℕ) : ℚ :=
  let F : ℤ := (a : ℤ) * 2 ^ 24 + (b : ℤ) * 2 ^ 16 + (c : ℤ) * 2 ^ 8 + (d : ℤ)
  let F2 := if 2 ^ 31 ≤ F then F - 2 ^ 32 else F
  (F2 : ℚ) / 1000

/-! ## Tick handler state (MainWindow instance variables, lines 246-273) -/

structure VentState where
  timeCount : ℕ
  prevFlow : ℚ
  prevPress : ℚ
  instV : ℚ
  vteTimer : ℕ
  insp : Bool
  Exp : Bool
  posPeaks : List ℚ
  PEEP : List ℚ
  expV : List ℚ
  pressData : List ℚ
  flowData : List ℚ
  deriving DecidableEq

/-- Initial values set in `MainWindow.__init__` (lines 246-273): both graph
buffers are 100 zeros, all counters zero, both phase flags false. -/
def initState : VentState :=
  { timeCount := 0
    prevFlow := 0
    prevPress := 0
    instV := 0
    vteTimer := 0
    insp := false
    Exp := false
    posPeaks := []
    PEEP := []
    expV := []
    pressData := List.replicate graphPoints 0
    flowData := List.replicate graphPoints 0 }

/-- One run of `MainWindow.updateData` (lines 296-355) on the sampled
`(flow, pressure)` pair, including the synchronous graph-buffer updates
performed by the `plotPressure` / `plotFlow` slots (lines 357-369), which are
invoked by `newPress.emit` / `newFlow.emit` before `posPeaks` is appended. -/
def stepVent (s : VentState) (flow pressure : ℚ) : VentState :=
  -- line 309: upward zero crossing, negative to positive
  let s1 :=
    if 0 ≤ flow ∧ s.prevFlow < 0 then
      -- line 310: ignore if a cycle is too small
      let s0 :=
        if 20 < s.vteTimer then
          { s with
            PEEP := pushWindow movingWindowPEEP s.PEEP s.prevPress
            expV := pushWindow movingWindowVte s.expV
              (2286 * (s.instV / ((s.vteTimer : ℚ) * 50))) }
        else s
      { s0 with instV := 0, vteTimer := 0, insp := true, Exp := false }
    else s
  -- line 323: downward zero crossing, positive to negative
  let s2 :=
    if flow < 0 ∧ 0 ≤ s.prevFlow then
      { s1 with insp := false, Exp := true }
    else s1
  -- line 327: accumulate for estimation of tidal volume
  let s3 :=
    if s2.Exp = true then
      { s2 with instV := s2.instV + -1 * flow, vteTimer := s2.vteTimer + 1 }
    else s2
  -- lines 331-332
  let s4 := { s3 with prevPress := pressure, prevFlow := flow }
  -- lines 335-336 emit newPress / newFlow, running plotPressure / plotFlow
  let pData := s4.pressData.drop 1 ++ [pressure]
  let fData := s4.flowData.drop 1 ++ [flow]
  let s5 := { s4 with pressData := pData, flowData := fData }
  -- lines 339-341: record peak pressure values for moving average
  let s6 := { s5 with posPeaks := pushWindow movingWindowPpeak s5.posPeaks (pyMax pData) }
  -- lines 344-355: emission counter
  let tc := s6.timeCount + 1
  if 5 < tc then { s6 with timeCount := 0 } else { s6 with timeCount := tc }

/-- Iterate the tick handler over input streams of flow and pressure samples:
`runVent f p n` is the state after `n` ticks, where tick `k` samples
`(f k, p k)`. -/
def runVent (f p : ℕ → ℚ) : ℕ → VentState
  | 0 => initState
  | n + 1 => stepVent (runVent f p n) (f n) (p n)

/-- The six values emitted on a stats-emission tick (lines 345-354). -/
structure EmittedStats where
  ppeak : ℚ
  ppeakInt : ℤ
  vte : ℚ
  vteInt : ℤ
  peep : ℚ
  peepInt : ℤ
  deriving DecidableEq

/-- Stats emission performed during a tick whose pre-state is `s`
(lines 344-355): after `timeCount` is incremented, the six stats signals fire
exactly when the incremented counter exceeds 5. -/
def emitAt (s : VentState) : Option EmittedStats :=
  if 5 < s.timeCount + 1 then
    some
      { ppeak := avg s.posPeaks
        ppeakInt := pyRound (avg s.posPeaks)
        vte := avg s.expV
        vteInt := pyRound (avg s.expV)
        peep := avg s.PEEP
        peepInt := pyRound (avg s.PEEP) }
  else none

/-! ## Display slots for the three monitored parameters -/

/-- Content written to a value label by `setText`: either a literal placeholder
of some number of dash characters, or `floatToStr(value, numDigits)`. -/
inductive Shown where
  | placeholder : ℕ → Shown
  | number : ℚ → ℕ → Shown
  deriving DecidableEq

/-- Observable state of one parameter display: the label text and whether the
frame is currently showing the alarm (red) style. -/
structure ParamDisplay where
  text : Shown
  alarmOn : Bool
  deriving DecidableEq

/-- Slot `MainWindow.setPpeak` (lines 372-383). -/
def setPpeak (pPeakAlarmSet : Bool) (pPeakMaxAlarm : ℚ) (value : ℚ)
    (d : ParamDisplay) : ParamDisplay :=
  if pPeakAlarmSet then
    { text := Shown.number value 1, alarmOn := decide (value > pPeakMaxAlarm) }
  else
    { d with text := Shown.placeholder 2 }

/-- Slot `MainWindow.setVte` (lines 387-399); note the unconditional `setText`
on line 389, overwritten by the placeholder when the alarm is not set. -/
def setVte (vteAlarmSet : Bool) (vteMinAlarm vteMaxAlarm : ℚ) (value : ℚ)
    (d : ParamDisplay) : ParamDisplay :=
  let d1 := { d with text := Shown.number value 0 }
  if vteAlarmSet then
    { d1 with text := Shown.number value 0
              alarmOn := decide (value < vteMinAlarm ∨ value > vteMaxAlarm) }
  else
    { d1 with text := Shown.placeholder 3 }

/-- Slot `MainWindow.setPEEP` (lines 402-414); the unconditional `setText` on
line 404 mirrors line 389. -/
def setPEEP (PEEPAlarmSet : Bool) (PEEPMaxAlarm : ℚ) (value : ℚ)
    (d : ParamDisplay) : ParamDisplay :=
  let d1 := { d with text := Shown.number value 1 }
  if PEEPAlarmSet then
    { d1 with text := Shown.number value 1, alarmOn := decide (value > PEEPMaxAlarm) }
  else
    { d1 with text := Shown.placeholder 2 }

/-! ## Alarm-settings dialog -/

/-- The confirmed alarm bounds and armed flags held by `MainWindow`
(lines 253-259). -/
structure MainAlarms where
  pPeakMaxAlarm : ℤ
  vteMaxAlarm : ℤ
  vteMinAlarm : ℤ
  PEEPMaxAlarm : ℤ
  pPeakAlarmSet : Bool
  vteAlarmSet : Bool
  PEEPAlarmSet : Bool
  deriving DecidableEq

/-- Defaults set in `MainWindow.__init__` (lines 253-259). -/
def mainAlarmsInit : MainAlarms :=
  { pPeakMaxAlarm := 45
    vteMaxAlarm := 1000
    vteMinAlarm := 0
    PEEPMaxAlarm := 25
    pPeakAlarmSet := false
    vteAlarmSet := false
    PEEPAlarmSet := false }

/-- Pending (unconfirmed) slider values and per-slider changed flags held by
the `AlarmSettings` dialog (lines 452-455 and the four sliders). -/
structure AlarmDialog where
  pPeakSlider : ℤ
  PEEPSlider : ℤ
  vteMinSlider : ℤ
  vteMaxSlider : ℤ
  pPeakChanged : Bool
  PEEPChanged : Bool
  vteMinChanged : Bool
  vteMaxChanged : Bool
  deriving DecidableEq

/-- Net effect of moving the pPeak slider: the `valueChanged` signal runs
`AlarmSettings.changePPeak` (lines 541-553), which records the changed flag;
label geometry and button styling are display-only. -/
def changePPeak (d : AlarmDialog) (newval : ℤ) : AlarmDialog :=
  { d with pPeakSlider := newval, pPeakChanged := true }

/-- `AlarmSettings.updateAlarms` (lines 604-618), the Confirm slot: commits
each changed slider value into the main window and arms that parameter.  The
dialog's changed flags are not reset by this slot.  Returns the updated main
window state; the dialog sliders are untouched. -/
def updateAlarms (m : MainAlarms) (d : AlarmDialog) : MainAlarms :=
  let m1 :=
    if d.pPeakChanged then
      { m with pPeakMaxAlarm := d.pPeakSlider, pPeakAlarmSet := true }
    else m
  let m2 :=
    if d.PEEPChanged then
      { m1 with PEEPMaxAlarm := d.PEEPSlider, PEEPAlarmSet := true }
    else m1
  if d.vteMinChanged || d.vteMaxChanged then
    { m2 with vteMinAlarm := d.vteMinSlider, vteMaxAlarm := d.vteMaxSlider
              vteAlarmSet := true }
  else m2

/-- `AlarmSettings.resetAlarms` (lines 621-645), the Cancel slot (also run
when the dialog opens): copies the main window's confirmed bounds back into
the sliders and clears every changed flag.  It reads but never writes the
main window state, returned unchanged in the first component. -/
def resetAlarms (m : MainAlarms) (_d : AlarmDialog) : MainAlarms × AlarmDialog :=
  (m,
    { pPeakSlider := m.pPeakMaxAlarm
      PEEPSlider := m.PEEPMaxAlarm
      vteMinSlider := m.vteMinAlarm
      vteMaxSlider := m.vteMaxAlarm
      pPeakChanged := false
      PEEPChanged := false
      vteMinChanged := false
      vteMaxChanged := false })

/-- Flow input used for the concrete tidal-volume scenario: constant −10 L/min
for 40 ticks, then positive. -/
def simFlow : ℕ → ℚ := fun j => if j < 40 then -10 else 1

/-- All-zero input signal. -/
def zeroSig : ℕ → ℚ := fun _ => 0

/-- A state in mid-expiration, 30 ticks in with 300 units of accumulated
flow, used to exercise the finalization formula at a concrete input. -/
def midExpState : VentState :=
  { initState with prevFlow := -5, instV := 300, vteTimer := 30 }

/-! ## Helper lemmas about one tick -/

lemma runVent_succ (f p : ℕ → ℚ) (n : ℕ) :
    runVent f p (n + 1) = stepVent (runVent f p n) (f n) (p n) := rfl

lemma stepVent_prevFlow (s : VentState) (f p : ℚ) :
    (stepVent s f p).prevFlow = f := by
  simp only [stepVent]
  split_ifs <;> rfl

lemma stepVent_prevPress (s : VentState) (f p : ℚ) :
    (stepVent s f p).prevPress = p := by
  simp only [stepVent]
  split_ifs <;> rfl

lemma stepVent_pressData (s : VentState) (f p : ℚ) :
    (stepVent s f p).pressData = s.pressData.drop 1 ++ [p] := by
  simp only [stepVent]
  split_ifs <;> rfl

lemma stepVent_posPeaks (s : VentState) (f p : ℚ) :
    (stepVent s f p).posPeaks =
      pushWindow movingWindowPpeak s.posPeaks (pyMax (s.pressData.drop 1 ++ [p])) := by
  simp only [stepVent]
  split_ifs <;> rfl

lemma stepVent_timeCount (s : VentState) (f p : ℚ) :
    (stepVent s f p).timeCount = if 5 < s.timeCount + 1 then 0 else s.timeCount + 1 := by
  simp only [stepVent]
  split_ifs <;> rfl

lemma stepVent_PEEP (s : VentState) (f p : ℚ) :
    (stepVent s f p).PEEP =
      if (0 ≤ f ∧ s.prevFlow < 0) ∧ 20 < s.vteTimer then
        pushWindow movingWindowPEEP s.PEEP s.prevPress
      else s.PEEP := by
  simp only [stepVent]
  split_ifs <;> simp_all

lemma stepVent_expV (s : VentState) (f p : ℚ) :
    (stepVent s f p).expV =
      if (0 ≤ f ∧ s.prevFlow < 0) ∧ 20 < s.vteTimer then
        pushWindow movingWindowVte s.expV (2286 * (s.instV / ((s.vteTimer : ℚ) * 50)))
      else s.expV := by
  simp only [stepVent]
  split_ifs <;> simp_all

lemma stepVent_vteTimer_le (s : VentState) (f p : ℚ) :
    (stepVent s f p).vteTimer ≤ s.vteTimer + 1 := by
  simp only [stepVent]
  split_ifs <;> simp

lemma stepVent_upCross (s : VentState) (f p : ℚ) (h : 0 ≤ f ∧ s.prevFlow < 0) :
    (stepVent s f p).instV = 0 ∧ (stepVent s f p).vteTimer = 0 ∧
    (stepVent s f p).insp = true ∧ (stepVent s f p).Exp = false := by
  have hnd : ¬ (f < 0 ∧ 0 ≤ s.prevFlow) := by
    rintro ⟨h1, -⟩
    exact absurd h.1 (not_le.mpr h1)
  simp only [stepVent]
  split_ifs <;> simp_all

lemma stepVent_downCross (s : VentState) (f p : ℚ) (h1 : f < 0) (h2 : 0 ≤ s.prevFlow) :
    (stepVent s f p).instV = s.instV + -1 * f ∧
    (stepVent s f p).vteTimer = s.vteTimer + 1 ∧
    (stepVent s f p).Exp = true ∧
    (stepVent s f p).insp = false ∧
    (stepVent s f p).expV = s.expV ∧
    (stepVent s f p).PEEP = s.PEEP := by
  have hnu : ¬ (0 ≤ f ∧ s.prevFlow < 0) := by
    rintro ⟨h3, -⟩
    exact absurd h3 (not_le.mpr h1)
  simp only [stepVent]
  split_ifs <;> simp_all

lemma stepVent_expCont (s : VentState) (f p : ℚ) (h1 : f < 0) (h2 : s.prevFlow < 0)
    (h3 : s.Exp = true) :
    (stepVent s f p).instV = s.instV + -1 * f ∧
    (stepVent s f p).vteTimer = s.vteTimer + 1 ∧
    (stepVent s f p).Exp = true ∧
    (stepVent s f p).insp = s.insp ∧
    (stepVent s f p).expV = s.expV ∧
    (stepVent s f p).PEEP = s.PEEP := by
  have hnu : ¬ (0 ≤ f ∧ s.prevFlow < 0) := by
    rintro ⟨h4, -⟩
    exact absurd h4 (not_le.mpr h1)
  have hnd : ¬ (f < 0 ∧ 0 ≤ s.prevFlow) := by
    rintro ⟨-, h4⟩
    exact absurd h4 (not_le.mpr h2)
  simp only [stepVent]
  split_ifs <;> simp_all

lemma stepVent_finalize (s : VentState) (f p : ℚ) (h1 : 0 ≤ f) (h2 : s.prevFlow < 0)
    (h3 : 20 < s.vteTimer) :
    (stepVent s f p).PEEP = pushWindow movingWindowPEEP s.PEEP s.prevPress ∧
    (stepVent s f p).expV =
      pushWindow movingWindowVte s.expV (2286 * (s.instV / ((s.vteTimer : ℚ) * 50))) ∧
    (stepVent s f p).instV = 0 ∧ (stepVent s f p).vteTimer = 0 ∧
    (stepVent s f p).insp = true ∧ (stepVent s f p).Exp = false := by
  have hPE := stepVent_PEEP s f p
  have hEV := stepVent_expV s f p
  rw [if_pos ⟨⟨h1, h2⟩, h3⟩] at hPE hEV
  exact ⟨hPE, hEV, stepVent_upCross s f p ⟨h1, h2⟩⟩

lemma stepVent_noCross (s : VentState) (f p : ℚ)
    (h1 : ¬ (0 ≤ f ∧ s.prevFlow < 0)) (h2 : ¬ (f < 0 ∧ 0 ≤ s.prevFlow)) :
    (stepVent s f p).instV = (if s.Exp = true then s.instV + -1 * f else s.instV) ∧
    (stepVent s f p).vteTimer = (if s.Exp = true then s.vteTimer + 1 else s.vteTimer) ∧
    (stepVent s f p).Exp = s.Exp ∧
    (stepVent s f p).insp = s.insp ∧
    (stepVent s f p).expV = s.expV ∧
    (stepVent s f p).PEEP = s.PEEP := by
  simp only [stepVent]
  split_ifs <;> simp_all

/-! ## Helper lemmas about whole runs -/

lemma runVent_timeCount (f p : ℕ → ℚ) : ∀ n, (runVent f p n).timeCount = n % 6 := by
  intro n
  induction n with
  | zero => rfl
  | succ n ih =>
    rw [runVent_succ, stepVent_timeCount, ih]
    split_ifs with h <;> omega

lemma runVent_vteTimer_le (f p : ℕ → ℚ) : ∀ n, (runVent f p n).vteTimer ≤ n := by
  intro n
  induction n with
  | zero => exact Nat.le_refl 0
  | succ n ih =>
    rw [runVent_succ]
    exact le_trans (stepVent_vteTimer_le _ _ _) (by omega)

lemma runVent_quiescent (f p : ℕ → ℚ) :
    ∀ n, (∀ k, k < n → ¬ (f k < 0 ∧ 0 ≤ (runVent f p k).prevFlow)) →
      (runVent f p n).instV = 0 ∧ (runVent f p n).vteTimer = 0 ∧
      (runVent f p n).PEEP = [] ∧ (runVent f p n).expV = [] ∧
      (runVent f p n).Exp = false ∧ 0 ≤ (runVent f p n).prevFlow := by
  intro n
  induction n with
  | zero =>
    intro _
    refine ⟨rfl, rfl, rfl, rfl, rfl, le_refl 0⟩
  | succ n ih =>
    intro h
    obtain ⟨hV, hT, hP, hE, hX, hF⟩ := ih (fun k hk => h k (by omega))
    have hnd : ¬ (f n < 0 ∧ 0 ≤ (runVent f p n).prevFlow) := h n (by omega)
    have hnu : ¬ (0 ≤ f n ∧ (runVent f p n).prevFlow < 0) := by
      rintro ⟨-, h1⟩
      exact absurd hF (not_le.mpr h1)
    have hf : 0 ≤ f n := by
      by_contra h1
      exact hnd ⟨not_le.mp h1, hF⟩
    obtain ⟨c1, c2, c3, -, c5, c6⟩ := stepVent_noCross (runVent f p n) (f n) (p n) hnu hnd
    rw [runVent_succ]
    rw [hX] at c1 c2
    simp only [Bool.false_eq_true, if_false] at c1 c2
    exact ⟨c1.trans hV, c2.trans hT, c6.trans hP, c5.trans hE, c3.trans hX,
      (stepVent_prevFlow _ _ _).symm ▸ hf⟩

lemma runVent_prevFlow_neg (f p : ℕ → ℚ) :
    ∀ n, (runVent f p n).prevFlow < 0 →
      ∃ k, k < n ∧ f k < 0 ∧ 0 ≤ (runVent f p k).prevFlow := by
  intro n
  induction n with
  | zero =>
    intro h
    exact absurd h (by simp [runVent, initState])
  | succ n ih =>
    intro h
    rw [runVent_succ, stepVent_prevFlow] at h
    rcases le_or_lt 0 (runVent f p n).prevFlow with h1 | h1
    · exact ⟨n, by omega, h, h1⟩
    · obtain ⟨k, hk, hr⟩ := ih h1
      exact ⟨k, by omega, hr⟩

lemma runVent_window_nonempty (f p : ℕ → ℚ) :
    ∀ n, ((runVent f p n).PEEP ≠ [] ∨ (runVent f p n).expV ≠ []) →
      ∃ m, m < n ∧ (0 ≤ f m ∧ (runVent f p m).prevFlow < 0) ∧
        20 < (runVent f p m).vteTimer := by
  intro n
  induction n with
  | zero =>
    intro h
    rcases h with h | h <;> exact absurd rfl h
  | succ n ih =>
    intro h
    by_cases hc : (0 ≤ f n ∧ (runVent f p n).prevFlow < 0) ∧ 20 < (runVent f p n).vteTimer
    · exact ⟨n, by omega, hc⟩
    · have hP := stepVent_PEEP (runVent f p n) (f n) (p n)
      have hE := stepVent_expV (runVent f p n) (f n) (p n)
      rw [if_neg hc] at hP hE
      rw [runVent_succ, hP, hE] at h
      obtain ⟨m, hm, hr⟩ := ih h
      exact ⟨m, by omega, hr⟩

/-! ## Helper lemmas about pushWindow -/

lemma pushWindow_length_le {α : Type} (cap : ℕ) (hc : 0 < cap) (w : List α) (x : α)
    (hw : w.length ≤ cap) : (pushWindow cap w x).length ≤ cap := by
  unfold pushWindow
  split_ifs with h
  · simp only [List.length_append, List.length_drop, List.length_cons, List.length_nil]
    omega
  · simp only [List.length_append, List.length_cons, List.length_nil]
    omega

lemma foldl_pushWindow_length_le {α : Type} (cap : ℕ) (hc : 0 < cap) :
    ∀ (xs : List α) (w : List α), w.length ≤ cap →
      (xs.foldl (pushWindow cap) w).length ≤ cap := by
  intro xs
  induction xs with
  | nil => intro w hw; exact hw
  | cons x xs ih =>
    intro w hw
    exact ih _ (pushWindow_length_le cap hc w x hw)

/-! ## The constant-expiration scenario used for the tidal-volume check -/

lemma simFlow_run_fields :
    ∀ k, 1 ≤ k → k ≤ 40 →
      (runVent simFlow zeroSig k).instV = 10 * (k : ℚ) ∧
      (runVent simFlow zeroSig k).vteTimer = k ∧
      (runVent simFlow zeroSig k).Exp = true ∧
      (runVent simFlow zeroSig k).prevFlow = -10 ∧
      (runVent simFlow zeroSig k).prevPress = 0 ∧
      (runVent simFlow zeroSig k).expV = [] ∧
      (runVent simFlow zeroSig k).PEEP = [] := by
  intro k
  induction k with
  | zero => omega
  | succ n ih =>
    intro h1 h2
    have hflow : simFlow n = -10 := by
      simp only [simFlow]
      rw [if_pos (by omega)]
    rcases Nat.eq_zero_or_pos n with hn | hn
    · subst hn
      rw [runVent_succ, hflow]
      obtain ⟨c1, c2, c3, -, c5, c6⟩ :=
        stepVent_downCross (runVent simFlow zeroSig 0) (-10) (zeroSig 0)
          (by norm_num) (by norm_num [runVent, initState])
      refine ⟨?_, ?_, c3, stepVent_prevFlow _ _ _, ?_, c5, c6⟩
      · rw [c1]; norm_num [runVent, initState]
      · rw [c2]; rfl
      · rw [stepVent_prevPress]; rfl
    · obtain ⟨i1, i2, i3, i4, i5, i6, i7⟩ := ih hn (by omega)
      rw [runVent_succ, hflow]
      obtain ⟨c1, c2, c3, -, c5, c6⟩ :=
        stepVent_expCont (runVent simFlow zeroSig n) (-10) (zeroSig n)
          (by norm_num) (by rw [i4]; norm_num) i3
      refine ⟨?_, ?_, c3, stepVent_prevFlow _ _ _, ?_, by rw [c5, i6], by rw [c6, i7]⟩
      · rw [c1, i1]
        push_cast
        ring
      · rw [c2, i2]
      · rw [stepVent_prevPress]; rfl

/-! ## Claim theorems -/

/-- C1: a sample is appended to the PEEP window and to the Vte window in a
tick exactly when that tick sees an upward zero-crossing (previous flow < 0,
current flow ≥ 0) with the duration counter strictly greater than 20; the
PEEP value appended is the previous tick's pressure; and on every upward
zero-crossing (finalized or not) the accumulated flow and duration counter are
reset to 0, the phase flags becoming Inspiration. -/
theorem breath_finalization_iff (s : VentState) (flow pressure : ℚ) :
    ((stepVent s flow pressure).PEEP =
        if (0 ≤ flow ∧ s.prevFlow < 0) ∧ 20 < s.vteTimer then
          pushWindow movingWindowPEEP s.PEEP s.prevPress
        else s.PEEP) ∧
    ((stepVent s flow pressure).expV =
        if (0 ≤ flow ∧ s.prevFlow < 0) ∧ 20 < s.vteTimer then
          pushWindow movingWindowVte s.expV (2286 * (s.instV / ((s.vteTimer : ℚ) * 50)))
        else s.expV) ∧
    (0 ≤ flow ∧ s.prevFlow < 0 →
      (stepVent s flow pressure).instV = 0 ∧ (stepVent s flow pressure).vteTimer = 0 ∧
      (stepVent s flow pressure).insp = true ∧ (stepVent s flow pressure).Exp = false) :=
  ⟨stepVent_PEEP s flow pressure, stepVent_expV s flow pressure,
    fun h => stepVent_upCross s flow pressure h⟩

/-- Witness for C1 at a concrete state: an upward crossing with duration 25
resets the accumulator, counter and phase. -/
theorem breath_finalization_iff_witness :
    (stepVent { initState with prevFlow := -1, vteTimer := 25 } 0 7).instV = 0 ∧
    (stepVent { initState with prevFlow := -1, vteTimer := 25 } 0 7).vteTimer = 0 ∧
    (stepVent { initState with prevFlow := -1, vteTimer := 25 } 0 7).insp = true ∧
    (stepVent { initState with prevFlow := -1, vteTimer := 25 } 0 7).Exp = false :=
  (breath_finalization_iff { initState with prevFlow := -1, vteTimer := 25 } 0 7).2.2
    ⟨by decide, by decide⟩

/-- C2: the tidal volume appended at a finalization equals
2286 ⬝ (accumulatedFlow / (durationTicks ⬝ 50)); with constant flow −10 over
40 ticks of Expiration the single appended Vte is 2286 ⬝ (10⬝40)/(40⬝50),
which equals 457.2. -/
theorem vte_formula_at_finalization :
    (∀ (s : VentState) (flow pressure : ℚ),
      0 ≤ flow → s.prevFlow < 0 → 20 < s.vteTimer →
      (stepVent s flow pressure).expV =
        pushWindow movingWindowVte s.expV (2286 * (s.instV / ((s.vteTimer : ℚ) * 50)))) ∧
    (runVent simFlow zeroSig 41).expV = [2286 * ((10 * 40 : ℚ) / (40 * 50))] ∧
    2286 * ((10 * 40 : ℚ) / (40 * 50)) = 457.2 := by
  refine ⟨fun s flow pressure h1 h2 h3 =>
    (stepVent_finalize s flow pressure h1 h2 h3).2.1, ?_, by norm_num⟩
  obtain ⟨i1, i2, i3, i4, i5, i6, i7⟩ := simFlow_run_fields 40 (by omega) (by omega)
  have hflow : simFlow 40 = 1 := by simp [simFlow]
  have hrw : runVent simFlow zeroSig 41
      = stepVent (runVent simFlow zeroSig 40) (simFlow 40) (zeroSig 40) := rfl
  rw [hrw, hflow]
  obtain ⟨-, hE, -⟩ := stepVent_finalize (runVent simFlow zeroSig 40) 1 (zeroSig 40)
    (by norm_num) (by rw [i4]; norm_num) (by rw [i2]; omega)
  rw [hE, i6, i1, i2]
  simp only [pushWindow, List.length_nil, movingWindowVte]
  norm_num

/-- Witness for C2 at a concrete state: flow 2 arriving after 30 Expiration
ticks with accumulated flow 300 appends the formula value. -/
theorem vte_formula_at_finalization_witness :
    (stepVent midExpState 2 0).expV =
      pushWindow movingWindowVte midExpState.expV
        (2286 * (midExpState.instV / ((midExpState.vteTimer : ℚ) * 50))) :=
  vte_formula_at_finalization.1 midExpState 2 0 (by decide) (by decide) (by decide)

/-- C3 (corrected cadence, showing the code bug): the emission counter is
incremented before the comparison with 5, so the six stats signals fire
exactly on ticks with index ≡ 5 (mod 6) — every 6th tick, not every 5th as
the claim and the source comment on line 343 state. -/
theorem stats_emission_every_six_ticks (f p : ℕ → ℚ) :
    (∀ n, (runVent f p n).timeCount = n % 6) ∧
    (∀ n, (emitAt (runVent f p n)).isSome = true ↔ n % 6 = 5) := by
  refine ⟨runVent_timeCount f p, fun n => ?_⟩
  have ht := runVent_timeCount f p n
  simp only [emitAt, ht]
  split_ifs with h
  · simp only [Option.isSome_some, true_iff]
    omega
  · simp only [Option.isSome_none, Bool.false_eq_true, false_iff]
    omega

/-- C4 counterexample: the peak-pressure window already receives an appended
value on the very first tick, a tick on which no stats emission happens, so
it is not appended only once per 5-tick emission cycle. -/
theorem ppeak_appended_on_non_emission_tick :
    (runVent zeroSig zeroSig 1).posPeaks.length = 1 ∧
    (emitAt (runVent zeroSig zeroSig 0)).isSome = false := by
  constructor
  · decide
  · decide

/-- C4 amended: the peak-pressure window receives exactly one appended value
per tick (hence several per emission cycle), that value being the maximum
pressure held in the 100-sample rolling display buffer after the tick's
sample is shifted in; it is never appended per breath. -/
theorem ppeak_appended_every_tick (s : VentState) (f p : ℚ) :
    (stepVent s f p).posPeaks =
      pushWindow movingWindowPpeak s.posPeaks (pyMax ((stepVent s f p).pressData)) ∧
    (stepVent s f p).pressData = s.pressData.drop 1 ++ [p] := by
  refine ⟨?_, stepVent_pressData s f p⟩
  rw [stepVent_pressData]
  exact stepVent_posPeaks s f p

/-- C5: a sliding window built by repeated insertion never exceeds its
capacity, and an insertion into a window at capacity drops exactly the oldest
element, leaving the length at the capacity.  The three windows of the
program instantiate this at capacities 20 (Ppeak), 5 (PEEP) and 5 (Vte). -/
theorem sliding_window_capacity_fifo (cap : ℕ) (hc : 0 < cap) :
    (∀ xs : List ℚ, (xs.foldl (pushWindow cap) ([] : List ℚ)).length ≤ cap) ∧
    (∀ (w : List ℚ) (x : ℚ), w.length = cap →
      pushWindow cap w x = w.drop 1 ++ [x] ∧ (pushWindow cap w x).length = cap) := by
  constructor
  · intro xs
    exact foldl_pushWindow_length_le cap hc xs [] (by simp)
  · intro w x hw
    constructor
    · unfold pushWindow
      rw [if_pos hw]
    · unfold pushWindow
      rw [if_pos hw]
      simp only [List.length_append, List.length_drop, List.length_cons, List.length_nil]
      omega

/-- Witness for C5 at capacity 5: six insertions stay within the bound, and an
insertion into a full window evicts the oldest element. -/
theorem sliding_window_capacity_fifo_witness :
    (([1, 2, 3, 4, 5, 6] : List ℚ).foldl (pushWindow 5) []).length ≤ 5 ∧
    pushWindow 5 ([1, 2, 3, 4, 5] : List ℚ) 6 = [2, 3, 4, 5, 6] := by
  have h := sliding_window_capacity_fifo 5 (by decide)
  refine ⟨h.1 _, ?_⟩
  rw [(h.2 [1, 2, 3, 4, 5] 6 (by decide)).1]
  rfl

/-- C6: the flow decoder reverses the 8 response bytes, reads reversed bytes
1..5 as a big-endian unsigned 32-bit count, subtracts 2^32 exactly when the
count is at least 2^31, and divides by 1000; raw count 4294967295 decodes to
−0.001. -/
theorem flow_decode_twos_complement :
    (∀ b0 b1 b2 b3 b4 b5 b6 b7 : ℕ,
      get_flow_decode [b0, b1, b2, b3, b4, b5, b6, b7] = flow_spec_decode b6 b5 b4 b3) ∧
    get_flow_decode [0, 0, 0, 255, 255, 255, 255, 0] = -(1 / 1000) := by
  constructor
  · intro b0 b1 b2 b3 b4 b5 b6 b7
    have hb : beInt [b6, b5, b4, b3]
        = (b6 : ℤ) * 2 ^ 24 + (b5 : ℤ) * 2 ^ 16 + (b4 : ℤ) * 2 ^ 8 + (b3 : ℤ) := by
      show 256 * (256 * (256 * (256 * 0 + (b6 : ℤ)) + (b5 : ℤ)) + (b4 : ℤ)) + (b3 : ℤ) = _
      ring
    show (((if 2 ^ 31 ≤ beInt [b6, b5, b4, b3] then beInt [b6, b5, b4, b3] - 2 ^ 32
          else beInt [b6, b5, b4, b3]) : ℤ) : ℚ) / 1000
        = flow_spec_decode b6 b5 b4 b3
    rw [hb]
    rfl
  · norm_num [get_flow_decode, beInt]

/-- C7: with the armed flag false, each of the three display handlers leaves
the violation (alarm) state untouched for every input value, and the final
label text is the dash placeholder rather than a number. -/
theorem unarmed_never_violates (pm vmin vmax v : ℚ) (d : ParamDisplay) :
    ((setPpeak false pm v d).alarmOn = d.alarmOn ∧
      (setPpeak false pm v d).text = Shown.placeholder 2) ∧
    ((setVte false vmin vmax v d).alarmOn = d.alarmOn ∧
      (setVte false vmin vmax v d).text = Shown.placeholder 3) ∧
    ((setPEEP false pm v d).alarmOn = d.alarmOn ∧
      (setPEEP false pm v d).text = Shown.placeholder 2) := by
  simp [setPpeak, setVte, setPEEP]

/-- C8: Cancel (resetAlarms) never writes the main window's confirmed bounds
or armed flags; in particular after confirm(pPeak max = 5), an unconfirmed
edit to 9 followed by cancel leaves the evaluator bound at 5 (and armed), and
moves the slider back to 5. -/
theorem cancel_preserves_confirmed_bounds :
    (∀ (m : MainAlarms) (d : AlarmDialog), (resetAlarms m d).1 = m) ∧
    (let d0 := (resetAlarms mainAlarmsInit
        ⟨0, 0, 0, 0, false, false, false, false⟩).2
     let m1 := updateAlarms mainAlarmsInit (changePPeak d0 5)
     let r := resetAlarms m1 (changePPeak (changePPeak d0 5) 9)
     r.1.pPeakMaxAlarm = 5 ∧ r.1.pPeakAlarmSet = true ∧ r.2.pPeakSlider = 5) :=
  ⟨fun _ _ => rfl, ⟨rfl, rfl, rfl⟩⟩

/-- C9 (the code at the failing input): a 4-byte short pressure response —
fewer than the 6 expected bytes — is still decoded to an engineering value
instead of surfacing a transport error. -/
theorem short_pressure_read_still_decodes :
    (get_pressure_decode [0, 0, 0, 0]).isSome = true ∧
    ([0, 0, 0, 0] : List ℕ).length < 6 ∧
    get_pressure_decode [0, 0, 0, 0]
      = some (1.01972 * (((0 : ℚ) - 1638) / 32.7675 - 200)) := by
    refine ⟨?_, by norm_num, ?_⟩ <;> norm_num [get_pressure_decode, beInt]

/-- C10: starting from the initial state, the accumulated expiratory flow and
duration counter stay 0 (and the PEEP and Vte windows stay empty) until the
first downward zero-crossing; and whenever a window is nonempty after n
ticks, n exceeds 20 and some earlier tick finalized with a duration above 20
preceded by a downward crossing. -/
theorem no_breath_activity_before_first_downcross (f p : ℕ → ℚ) (n : ℕ) :
    ((∀ k, k < n → ¬ (f k < 0 ∧ 0 ≤ (runVent f p k).prevFlow)) →
      (runVent f p n).instV = 0 ∧ (runVent f p n).vteTimer = 0 ∧
      (runVent f p n).PEEP = [] ∧ (runVent f p n).expV = []) ∧
    ((runVent f p n).PEEP ≠ [] ∨ (runVent f p n).expV ≠ [] →
      20 < n ∧ ∃ m, m < n ∧ 20 < (runVent f p m).vteTimer ∧
        (runVent f p m).prevFlow < 0 ∧
        ∃ k, k < m ∧ f k < 0 ∧ 0 ≤ (runVent f p k).prevFlow) := by
  constructor
  · intro h
    obtain ⟨h1, h2, h3, h4, -, -⟩ := runVent_quiescent f p n h
    exact ⟨h1, h2, h3, h4⟩
  · intro h
    obtain ⟨m, hm, ⟨hf, hpf⟩, ht⟩ := runVent_window_nonempty f p n h
    have hle := runVent_vteTimer_le f p m
    obtain ⟨k, hk, hkr⟩ := runVent_prevFlow_neg f p m hpf
    exact ⟨by omega, m, hm, ht, hpf, k, hk, hkr⟩

/-- Witness for C10: three ticks of constant positive flow leave the
integrator, the counter and both windows untouched. -/
theorem no_breath_activity_before_first_downcross_witness :
    (runVent (fun _ => 1) (fun _ => 0) 3).instV = 0 ∧
    (runVent (fun _ => 1) (fun _ => 0) 3).vteTimer = 0 ∧
    (runVent (fun _ => 1) (fun _ => 0) 3).PEEP = [] ∧
    (runVent (fun _ => 1) (fun _ => 0) 3).expV = [] :=
  (no_breath_activity_before_first_downcross (fun _ => 1) (fun _ => 0) 3).1
    (fun _ _ h => absurd h.1 (by norm_num))
